import Mathlib

/-!
Shallow embedding of `src/picoregisters.py` from the `device.pico` repository:
Harp-protocol register adapters over Raspberry Pi Pico peripherals
(digital input/output arrays, an ADC channel and a PWM generator).

Each Python register class becomes a Lean structure holding the register's
fixed type tag, its cached `value` and its peripheral handle.  A `write`
(or overridden `read`) becomes a pure function from the register state and
the request to `Except PyError` of the successor state paired with the
ordered list of observable events (stores into the cached value and
peripheral invocations), mirroring the statement order of the Python body.
A raised Python exception becomes an `Except.error`, so an erroneous
operation yields no successor state: the register and its peripheral are
unchanged exactly when the Python object is unmutated at the raise site.

The base classes `microharp.register.HarpRegister` / `ReadWriteReg` and the
peripheral module `picofunction` are dependencies that are not under
`src/`; their behavior is modelled from the specification (marked
`Modelled from the spec:` below).  The class constants
`HarpPwm.MinFrequency` and `HarpPwm.MinDutyCycle` have unspecified values
and are carried as explicit parameters.
-/

/-- The fixed register data-type tags of `microharp.types.HarpTypes`
(spec section 3: U8..U64, S8..S64, Float, Double). Only the tag identity
matters to the code under `src/`. -/
inductive HarpTypes where
  | U8 | U16 | U32 | U64 | S8 | S16 | S32 | S64 | Float | Double
deriving DecidableEq, Repr

/-- The Python exceptions the register layer can raise: type and length
mismatches from the base read/write, `ValueError` from domain validation
(`InvalidValue` in the spec) and `IndexError` from subscripting an empty
payload. -/
inductive PyError where
  | typeMismatch | lengthMismatch | invalidValue | indexError
deriving DecidableEq, Repr

/-- A Python runtime value, as far as the `enabled` attribute of the PWM
peripheral is concerned: the source tests it with the identity checks
`is True` / `is False`, which distinguish the booleans from truthy
non-boolean values such as the integer 1. -/
inductive PyVal where
  | bool (b : Bool)
  | int (n : Int)
deriving DecidableEq, Repr

/-- Python `x is True`: identity with the singleton `True` object. -/
def PyVal.pyIsTrue : PyVal → Bool
  | .bool true => true
  | _ => false

/-- Python `x is False`: identity with the singleton `False` object. -/
def PyVal.pyIsFalse : PyVal → Bool
  | .bool false => true
  | _ => false

/-- Modelled from the spec: `microharp.register.HarpRegister.read` is not
under `src/`.  Per spec section 4.1 it fails with `TypeMismatch` when the
requested type differs from the register's fixed type and otherwise
returns the cached value unchanged, with no side effect. -/
def baseRead (regTyp typ : HarpTypes) (value : List Int) :
    Except PyError (List Int) :=
  if typ = regTyp then .ok value else .error .typeMismatch

/-- Modelled from the spec: `microharp.register.ReadWriteReg.write` is not
under `src/`.  Per spec sections 4.1 and 7 it fails with `TypeMismatch`
when the requested type differs, fails with `LengthMismatch` when the
payload arity differs from the register length, and otherwise stores the
payload into the cached value with no further effect. -/
def baseWrite (regTyp : HarpTypes) (regLen : Nat) (typ : HarpTypes)
    (payload : List Int) : Except PyError (List Int) :=
  if typ ≠ regTyp then .error .typeMismatch
  else if payload.length ≠ regLen then .error .lengthMismatch
  else .ok payload

/-- The observable events of one register operation, in execution order:
a store into the cached value (the base write) and the peripheral
invocations of `src/picoregisters.py`. -/
inductive Event where
  | store (v : List Int)
  | setState (mask : Int)
  | clearState (mask : Int)
  | toggleState (mask : Int)
  | adcEventEnable
  | adcEventDisable
  | setFrequency (v : Int)
  | setDutycyle (v : Int)
  | pwmStart
  | pwmStop
deriving DecidableEq, Repr

/-- Whether an event is a store into the cached value. -/
def Event.isStore : Event → Bool
  | .store _ => true
  | _ => false

/-- Modelled from the spec: `picofunction.HarpDigitalInputArray` is not
under `src/`; per spec section 6 its `state` is a pure bitmask query of
the input pins. -/
structure HarpDigitalInputArray where
  state : Int
deriving DecidableEq, Repr

/-- Modelled from the spec: `picofunction.HarpDigitalOutputArray` is not
under `src/`; per spec section 6 it holds a pin bitmask with
`set_state`, `clear_state` and `toggle_state` affecting only the masked
bits, and `clear_state()` with no mask clearing all (used at
construction). -/
structure HarpDigitalOutputArray where
  state : Int
deriving DecidableEq, Repr

/-- Bits in the mask transition to ON; others unaffected. -/
def HarpDigitalOutputArray.set_state (p : HarpDigitalOutputArray)
    (mask : Int) : HarpDigitalOutputArray :=
  { state := Int.lor p.state mask }

/-- Bits in the mask transition to OFF; others unaffected. -/
def HarpDigitalOutputArray.clear_state (p : HarpDigitalOutputArray)
    (mask : Int) : HarpDigitalOutputArray :=
  { state := Int.land p.state (Int.lnot mask) }

/-- `clear_state()` with no mask: clears all bits. -/
def HarpDigitalOutputArray.clear_state_all
    (_p : HarpDigitalOutputArray) : HarpDigitalOutputArray :=
  { state := 0 }

/-- Bits in the mask invert; others unaffected. -/
def HarpDigitalOutputArray.toggle_state (p : HarpDigitalOutputArray)
    (mask : Int) : HarpDigitalOutputArray :=
  { state := Int.xor p.state mask }

/-- Modelled from the spec: the ADC peripheral of `picofunction` is not
under `src/`; per spec section 6, `read_u16()` synchronously produces the
current sample. -/
structure AdcObject where
  sample : Int
deriving DecidableEq, Repr

/-- `read_u16()`: the current sample. -/
def AdcObject.read_u16 (a : AdcObject) : Int := a.sample

/-- Modelled from the spec: the event/stream gate of `picofunction` is not
under `src/`; per spec section 6 it offers `enable()` and `disable()`. -/
structure AdcEvent where
  enabled : Bool
deriving DecidableEq, Repr

/-- `enable()`. -/
def AdcEvent.enable (_e : AdcEvent) : AdcEvent := { enabled := true }

/-- `disable()`. -/
def AdcEvent.disable (_e : AdcEvent) : AdcEvent := { enabled := false }

/-- The `picoObject` handle held by `AnalogStreamStateRegister`: the code
under `src/` only touches its `adc_event` attribute. -/
structure PicoObject where
  adc_event : AdcEvent
deriving DecidableEq, Repr

/-- Modelled from the spec: `picofunction.HarpPwm` is not under `src/`;
per spec section 6 it has a settable `frequency`, a settable `dutycyle`
(attribute name preserved as a known quirk), an `enabled` attribute and
`start()` / `stop()` actions.  `enabled` is kept as a Python value so the
identity checks `is True` / `is False` in the source remain
distinguishable from truthiness. -/
structure HarpPwm where
  frequency : Int
  dutycyle : Int
  enabled : PyVal
deriving DecidableEq, Repr

/-- `start()`: per spec section 4.8, forces Running unconditionally. -/
def HarpPwm.start (p : HarpPwm) : HarpPwm := { p with enabled := .bool true }

/-- `stop()`: per spec section 4.9, transitions to Stopped. -/
def HarpPwm.stop (p : HarpPwm) : HarpPwm := { p with enabled := .bool false }

/-- `HarpDigitalInputArrayRegister`: register state (fixed type tag,
cached value, input-array handle). -/
structure HarpDigitalInputArrayRegister where
  typ : HarpTypes
  value : List Int
  harp_digital_input_array : HarpDigitalInputArray
deriving DecidableEq, Repr

/-- `HarpDigitalInputArrayRegister.__init__`: `super().__init__(U8, 0)`
then stores the peripheral handle.  The base constructor's cached value is
modelled from the spec section 3 invariant (one element per the length) as
the one-element sequence `[0]`. -/
def HarpDigitalInputArrayRegister.init (p : HarpDigitalInputArray) :
    HarpDigitalInputArrayRegister :=
  { typ := .U8, value := [0], harp_digital_input_array := p }

/-- `HarpDigitalInputArrayRegister.read`: `super().read(typ)` (type check,
result discarded) then return the live pin state as a one-element tuple.
The body contains no assignment, so the register state is returned
unchanged. -/
def HarpDigitalInputArrayRegister.read (r : HarpDigitalInputArrayRegister)
    (typ : HarpTypes) :
    Except PyError (List Int × HarpDigitalInputArrayRegister) :=
  match baseRead r.typ typ r.value with
  | .error e => .error e
  | .ok _ => .ok ([r.harp_digital_input_array.state], r)

/-- `HarpDigitalOutputArrayRegister`: shared state of the Set/Clear/Toggle
variants (which add no attributes of their own).  The source attribute is
`self.HarpDigitalOutputArray`; the field is lower-cased here because the
name would shadow the peripheral type. -/
structure HarpDigitalOutputArrayRegister where
  typ : HarpTypes
  value : List Int
  harpDigitalOutputArray : HarpDigitalOutputArray
deriving DecidableEq, Repr

/-- `HarpDigitalOutputArrayRegister.__init__`: `super().__init__(U8, 0)`,
store the handle, then `clear_state()` forces the all-clear state. -/
def HarpDigitalOutputArrayRegister.init (p : HarpDigitalOutputArray) :
    HarpDigitalOutputArrayRegister :=
  { typ := .U8, value := [0], harpDigitalOutputArray := p.clear_state_all }

/-- `Set_HarpDigitalOutputArrayRegister.write`: `super().write(typ, mask)`
then `set_state(mask[0])`. -/
def Set_HarpDigitalOutputArrayRegister.write
    (r : HarpDigitalOutputArrayRegister) (typ : HarpTypes)
    (mask : List Int) :
    Except PyError (HarpDigitalOutputArrayRegister × List Event) :=
  match baseWrite r.typ 1 typ mask with
  | .error e => .error e
  | .ok stored =>
    match mask with
    | [] => .error .indexError
    | m :: _ =>
      .ok ({ r with
             value := stored
             harpDigitalOutputArray := r.harpDigitalOutputArray.set_state m },
           [Event.store stored, Event.setState m])

/-- `Clear_HarpDigitalOutputArrayRegister.write`: `super().write(typ, mask)`
then `clear_state(mask[0])`. -/
def Clear_HarpDigitalOutputArrayRegister.write
    (r : HarpDigitalOutputArrayRegister) (typ : HarpTypes)
    (mask : List Int) :
    Except PyError (HarpDigitalOutputArrayRegister × List Event) :=
  match baseWrite r.typ 1 typ mask with
  | .error e => .error e
  | .ok stored =>
    match mask with
    | [] => .error .indexError
    | m :: _ =>
      .ok ({ r with
             value := stored
             harpDigitalOutputArray := r.harpDigitalOutputArray.clear_state m },
           [Event.store stored, Event.clearState m])

/-- `Toggle_HarpDigitalOutputArrayRegister.write`: `super().write(typ, mask)`
then `toggle_state(mask[0])`. -/
def Toggle_HarpDigitalOutputArrayRegister.write
    (r : HarpDigitalOutputArrayRegister) (typ : HarpTypes)
    (mask : List Int) :
    Except PyError (HarpDigitalOutputArrayRegister × List Event) :=
  match baseWrite r.typ 1 typ mask with
  | .error e => .error e
  | .ok stored =>
    match mask with
    | [] => .error .indexError
    | m :: _ =>
      .ok ({ r with
             value := stored
             harpDigitalOutputArray := r.harpDigitalOutputArray.toggle_state m },
           [Event.store stored, Event.toggleState m])

/-- `AdcRegister`: register state.  Its Python base is the read-only
`HarpRegister`; the base constructor's cached value is not given in
`src/`, so the field is left arbitrary and theorems quantify over it. -/
structure AdcRegister where
  typ : HarpTypes
  value : List Int
  adc : AdcObject
deriving DecidableEq, Repr

/-- `AdcRegister.read`: `super().read(typ)` (type check, result discarded)
then return the freshly sampled `read_u16()` as a one-element tuple.  The
body contains no assignment, so the register state is returned
unchanged. -/
def AdcRegister.read (r : AdcRegister) (typ : HarpTypes) :
    Except PyError (List Int × AdcRegister) :=
  match baseRead r.typ typ r.value with
  | .error e => .error e
  | .ok _ => .ok ([r.adc.read_u16], r)

/-- `AnalogStreamStateRegister`: register state. -/
structure AnalogStreamStateRegister where
  typ : HarpTypes
  value : List Int
  picoObject : PicoObject
deriving DecidableEq, Repr

/-- `AnalogStreamStateRegister.__init__`: `super().__init__(U8, 0)` then
store the handle. -/
def AnalogStreamStateRegister.init (po : PicoObject) :
    AnalogStreamStateRegister :=
  { typ := .U8, value := [0], picoObject := po }

/-- `AnalogStreamStateRegister.write`: `super().write(typ, value)` then
`enable()` the adc event if `value[0] > 0` else `disable()` it.  The class
defines no `__len__` of its own; the register is one element per spec
section 4.5, so the base length check uses 1. -/
def AnalogStreamStateRegister.write (r : AnalogStreamStateRegister)
    (typ : HarpTypes) (value : List Int) :
    Except PyError (AnalogStreamStateRegister × List Event) :=
  match baseWrite r.typ 1 typ value with
  | .error e => .error e
  | .ok stored =>
    match value with
    | [] => .error .indexError
    | v :: _ =>
      if v > 0 then
        .ok ({ r with
               value := stored
               picoObject := { adc_event := r.picoObject.adc_event.enable } },
             [Event.store stored, Event.adcEventEnable])
      else
        .ok ({ r with
               value := stored
               picoObject := { adc_event := r.picoObject.adc_event.disable } },
             [Event.store stored, Event.adcEventDisable])

/-- `PwmFreqRegister`: register state. -/
structure PwmFreqRegister where
  typ : HarpTypes
  value : List Int
  harpPWM : HarpPwm
deriving DecidableEq, Repr

/-- `PwmFreqRegister.__init__`:
`super().__init__(U16, HarpPwm.MinFrequency)` then store the handle. -/
def PwmFreqRegister.init (MinFrequency : Int) (pwm : HarpPwm) :
    PwmFreqRegister :=
  { typ := .U16, value := [MinFrequency], harpPWM := pwm }

/-- `PwmFreqRegister.validate`: raise `ValueError` when
`value[0] < HarpPwm.MinFrequency`, else return the payload. -/
def PwmFreqRegister.validate (MinFrequency : Int) (value : List Int) :
    Except PyError (List Int) :=
  match value with
  | [] => .error .indexError
  | v :: _ => if v < MinFrequency then .error .invalidValue else .ok value

/-- `PwmFreqRegister.write`: `super().write(typ, self.validate(value))` —
the argument `self.validate(value)` is evaluated before the base write
runs — then `self.harpPWM.frequency = value[0]`. -/
def PwmFreqRegister.write (MinFrequency : Int) (r : PwmFreqRegister)
    (typ : HarpTypes) (value : List Int) :
    Except PyError (PwmFreqRegister × List Event) :=
  match PwmFreqRegister.validate MinFrequency value with
  | .error e => .error e
  | .ok validated =>
    match baseWrite r.typ 1 typ validated with
    | .error e => .error e
    | .ok stored =>
      match value with
      | [] => .error .indexError
      | v :: _ =>
        .ok ({ r with
               value := stored
               harpPWM := { r.harpPWM with frequency := v } },
             [Event.store stored, Event.setFrequency v])

/-- `PwmDutycycleRegister`: register state. -/
structure PwmDutycycleRegister where
  typ : HarpTypes
  value : List Int
  harpPWM : HarpPwm
deriving DecidableEq, Repr

/-- `PwmDutycycleRegister.validate`: raise `ValueError` when
`value[0] > 100` or `value[0] < HarpPwm.MinDutyCycle`, else return the
payload. -/
def PwmDutycycleRegister.validate (MinDutyCycle : Int) (value : List Int) :
    Except PyError (List Int) :=
  match value with
  | [] => .error .indexError
  | v :: _ =>
    if v > 100 ∨ v < MinDutyCycle then .error .invalidValue else .ok value

/-- `PwmDutycycleRegister.write`:
`super().write(typ, self.validate(value))` — validation evaluated before
the base write — then `self.harpPWM.dutycyle = value[0]`. -/
def PwmDutycycleRegister.write (MinDutyCycle : Int)
    (r : PwmDutycycleRegister) (typ : HarpTypes) (value : List Int) :
    Except PyError (PwmDutycycleRegister × List Event) :=
  match PwmDutycycleRegister.validate MinDutyCycle value with
  | .error e => .error e
  | .ok validated =>
    match baseWrite r.typ 1 typ validated with
    | .error e => .error e
    | .ok stored =>
      match value with
      | [] => .error .indexError
      | v :: _ =>
        .ok ({ r with
               value := stored
               harpPWM := { r.harpPWM with dutycyle := v } },
             [Event.store stored, Event.setDutycyle v])

/-- `PwmDutycycleRegister.__init__`:
`super().__init__(U8, HarpPwm.MinDutyCycle)`, store the handle, then
`self.write(self.typ, (0,))` — the full validating write path runs during
construction, so construction can itself raise `ValueError`. -/
def PwmDutycycleRegister.init (MinDutyCycle : Int) (pwm : HarpPwm) :
    Except PyError (PwmDutycycleRegister × List Event) :=
  let r0 : PwmDutycycleRegister :=
    { typ := .U8, value := [MinDutyCycle], harpPWM := pwm }
  PwmDutycycleRegister.write MinDutyCycle r0 r0.typ [0]

/-- Modelled from the spec section 4.1: `PwmDutycycleRegister` does not
override `read`; the inherited default returns the cached value after the
type check, with no side effect. -/
def PwmDutycycleRegister.read (r : PwmDutycycleRegister) (typ : HarpTypes) :
    Except PyError (List Int) :=
  baseRead r.typ typ r.value

/-- `PwmStartRegister`: register state. -/
structure PwmStartRegister where
  typ : HarpTypes
  value : List Int
  harpPWM : HarpPwm
deriving DecidableEq, Repr

/-- `PwmStartRegister.write`: branches on `self.harpPWM.enabled is False`,
but both branches run `super().write(typ, value)` then
`self.harpPWM.start()`. -/
def PwmStartRegister.write (r : PwmStartRegister) (typ : HarpTypes)
    (value : List Int) :
    Except PyError (PwmStartRegister × List Event) :=
  if r.harpPWM.enabled.pyIsFalse then
    match baseWrite r.typ 1 typ value with
    | .error e => .error e
    | .ok stored =>
      .ok ({ r with value := stored, harpPWM := r.harpPWM.start },
           [Event.store stored, Event.pwmStart])
  else
    match baseWrite r.typ 1 typ value with
    | .error e => .error e
    | .ok stored =>
      .ok ({ r with value := stored, harpPWM := r.harpPWM.start },
           [Event.store stored, Event.pwmStart])

/-- Written from the spec's words (section 4.8), as the refinement target
of claim C5: a single unconditional store-then-start, with no branch on
the enabled state. -/
def PwmStartRegister.writeSpec (r : PwmStartRegister) (typ : HarpTypes)
    (value : List Int) :
    Except PyError (PwmStartRegister × List Event) :=
  match baseWrite r.typ 1 typ value with
  | .error e => .error e
  | .ok stored =>
    .ok ({ r with value := stored, harpPWM := r.harpPWM.start },
         [Event.store stored, Event.pwmStart])

/-- `PwmStopRegister`: register state. -/
structure PwmStopRegister where
  typ : HarpTypes
  value : List Int
  harpPWM : HarpPwm
deriving DecidableEq, Repr

/-- `PwmStopRegister.write`: if `self.harpPWM.enabled is True` then
`super().write(typ, value)` and `self.harpPWM.stop()`, else only
`super().write(typ, value)`. -/
def PwmStopRegister.write (r : PwmStopRegister) (typ : HarpTypes)
    (value : List Int) :
    Except PyError (PwmStopRegister × List Event) :=
  if r.harpPWM.enabled.pyIsTrue then
    match baseWrite r.typ 1 typ value with
    | .error e => .error e
    | .ok stored =>
      .ok ({ r with value := stored, harpPWM := r.harpPWM.stop },
           [Event.store stored, Event.pwmStop])
  else
    match baseWrite r.typ 1 typ value with
    | .error e => .error e
    | .ok stored =>
      .ok ({ r with value := stored }, [Event.store stored])

/-- A trace that first stores the given payload into the cached value and
afterwards performs no further store (peripheral actions only). -/
def storeFirst (tr : List Event) (payload : List Int) : Prop :=
  ∃ rest, tr = Event.store payload :: rest ∧
    ∀ e ∈ rest, e.isStore = false

/-- Inversion for the modelled base write: it succeeds exactly when the
requested type matches and the payload has the register's arity, and then
the stored sequence is the payload itself. -/
theorem baseWrite_ok_iff {regTyp : HarpTypes} {regLen : Nat}
    {typ : HarpTypes} {payload stored : List Int} :
    baseWrite regTyp regLen typ payload = .ok stored ↔
      typ = regTyp ∧ payload.length = regLen ∧ stored = payload := by
  unfold baseWrite
  split
  · simp_all
  · split
    · simp_all
    · simp_all
      exact eq_comm

/-- Evaluation of the modelled base write on a matching one-element
request. -/
theorem baseWrite_self_singleton (t : HarpTypes) (v : Int) :
    baseWrite t 1 t [v] = .ok [v] := by
  simp [baseWrite]

/-- Claim C2: a PWM frequency write whose payload value is below
`MinFrequency` raises `ValueError` (`InvalidValue`) — for any requested
type, since `validate` is evaluated before the base write — and hence
yields no successor state: the cached value and the peripheral's
frequency stay those of `r`.  A write of exactly `MinFrequency` succeeds,
storing `[MinFrequency]` and setting the peripheral frequency to
`MinFrequency`. -/
theorem C2_pwm_freq_min_boundary (MinFrequency : Int)
    (r : PwmFreqRegister) (typ : HarpTypes) (v : Int) :
    (v < MinFrequency →
      PwmFreqRegister.write MinFrequency r typ [v] =
        .error .invalidValue) ∧
    (PwmFreqRegister.write MinFrequency r r.typ [MinFrequency] =
      .ok ({ r with
             value := [MinFrequency]
             harpPWM := { r.harpPWM with frequency := MinFrequency } },
           [Event.store [MinFrequency], Event.setFrequency MinFrequency])) := by
  constructor
  · intro hlt
    simp [PwmFreqRegister.write, PwmFreqRegister.validate, hlt]
  · simp [PwmFreqRegister.write, PwmFreqRegister.validate,
      baseWrite_self_singleton]

/-- Witness for C2 at `MinFrequency = 10`, `v = 3`. -/
theorem C2_witness :
    PwmFreqRegister.write 10
      (PwmFreqRegister.init 10 ⟨100, 50, PyVal.bool false⟩)
      HarpTypes.U16 [3] = .error .invalidValue :=
  (C2_pwm_freq_min_boundary 10
    (PwmFreqRegister.init 10 ⟨100, 50, PyVal.bool false⟩)
    HarpTypes.U16 3).1 (by decide)

/-- Claim C3: a PWM duty-cycle write whose payload value is above 100 or
below `MinDutyCycle` raises `ValueError` (`InvalidValue`) — for any
requested type, since `validate` is evaluated before the base write — so
the cached value and the peripheral are unchanged; when
`MinDutyCycle ≤ 0` the boundary writes `[0]` and `[100]` both succeed. -/
theorem C3_pwm_dutycycle_range_boundary (MinDutyCycle : Int)
    (r : PwmDutycycleRegister) (typ : HarpTypes) (v : Int) :
    (v > 100 ∨ v < MinDutyCycle →
      PwmDutycycleRegister.write MinDutyCycle r typ [v] =
        .error .invalidValue) ∧
    (MinDutyCycle ≤ 0 →
      PwmDutycycleRegister.write MinDutyCycle r r.typ [0] =
        .ok ({ r with
               value := [0]
               harpPWM := { r.harpPWM with dutycyle := 0 } },
             [Event.store [0], Event.setDutycyle 0]) ∧
      PwmDutycycleRegister.write MinDutyCycle r r.typ [100] =
        .ok ({ r with
               value := [100]
               harpPWM := { r.harpPWM with dutycyle := 100 } },
             [Event.store [100], Event.setDutycyle 100])) := by
  constructor
  · intro hbad
    simp [PwmDutycycleRegister.write, PwmDutycycleRegister.validate, hbad]
  · intro hle
    constructor
    · have h0 : ¬ (0 : Int) < MinDutyCycle := by omega
      simp [PwmDutycycleRegister.write, PwmDutycycleRegister.validate, h0,
        baseWrite_self_singleton]
    · have h100a : ¬ (100 : Int) > 100 := by omega
      have h100b : ¬ (100 : Int) < MinDutyCycle := by omega
      simp [PwmDutycycleRegister.write, PwmDutycycleRegister.validate,
        h100a, h100b, baseWrite_self_singleton]

/-- Witness for C3 at `MinDutyCycle = 0`, `v = 101`. -/
theorem C3_witness :
    PwmDutycycleRegister.write 0
      (⟨HarpTypes.U8, [0], ⟨100, 50, PyVal.bool false⟩⟩ :
        PwmDutycycleRegister)
      HarpTypes.U8 [101] = .error .invalidValue ∧
    PwmDutycycleRegister.write 0
      (⟨HarpTypes.U8, [0], ⟨100, 50, PyVal.bool false⟩⟩ :
        PwmDutycycleRegister)
      HarpTypes.U8 [100] =
      .ok (⟨HarpTypes.U8, [100], ⟨100, 100, PyVal.bool false⟩⟩,
           [Event.store [100], Event.setDutycyle 100]) :=
  ⟨(C3_pwm_dutycycle_range_boundary 0
      ⟨HarpTypes.U8, [0], ⟨100, 50, PyVal.bool false⟩⟩
      HarpTypes.U8 101).1 (by decide),
   ((C3_pwm_dutycycle_range_boundary 0
      ⟨HarpTypes.U8, [0], ⟨100, 50, PyVal.bool false⟩⟩
      HarpTypes.U8 101).2 (by decide)).2⟩

/-- Evaluation of the duty-cycle constructor: construction runs the full
validating write path with payload `(0,)`, so it raises `ValueError` when
`0 < MinDutyCycle` and otherwise yields the register with cached value
`[0]` and the peripheral's `dutycyle` set to 0. -/
theorem pwmDutycycleInit_eval (MinDutyCycle : Int) (pwm : HarpPwm) :
    PwmDutycycleRegister.init MinDutyCycle pwm =
      if 0 < MinDutyCycle then .error .invalidValue
      else
        .ok ({ typ := .U8, value := [0]
               harpPWM := { pwm with dutycyle := 0 } },
             [Event.store [0], Event.setDutycyle 0]) := by
  by_cases h : 0 < MinDutyCycle <;>
    simp [PwmDutycycleRegister.init, PwmDutycycleRegister.write,
      PwmDutycycleRegister.validate, h, baseWrite_self_singleton]

/-- Claim C4: whenever construction of a `PwmDutycycleRegister` succeeds,
the register's cached value is exactly `[0]` — the constructor installs
`MinDutyCycle` as the base default and then immediately overwrites it via
an explicit write of 0 — so before any further write it reads back as
0%. -/
theorem C4_dutycycle_startup_value (MinDutyCycle : Int) (pwm : HarpPwm)
    (r : PwmDutycycleRegister) (tr : List Event)
    (h : PwmDutycycleRegister.init MinDutyCycle pwm = .ok (r, tr)) :
    r.value = [0] ∧
    PwmDutycycleRegister.read r HarpTypes.U8 = .ok [0] := by
  rw [pwmDutycycleInit_eval] at h
  split at h
  · cases h
  · injection h with h1
    injection h1 with h2 h3
    subst h2
    exact ⟨rfl, by simp [PwmDutycycleRegister.read, baseRead]⟩

/-- Witness for C4 at `MinDutyCycle = 0`. -/
theorem C4_witness :
    (⟨HarpTypes.U8, [0], ⟨100, 0, PyVal.bool false⟩⟩ :
      PwmDutycycleRegister).value = [0] ∧
    PwmDutycycleRegister.read
      (⟨HarpTypes.U8, [0], ⟨100, 0, PyVal.bool false⟩⟩ :
        PwmDutycycleRegister) HarpTypes.U8 = .ok [0] :=
  C4_dutycycle_startup_value 0 ⟨100, 50, PyVal.bool false⟩
    ⟨HarpTypes.U8, [0], ⟨100, 0, PyVal.bool false⟩⟩
    [Event.store [0], Event.setDutycyle 0] (by rfl)

/-- Claim C10: constructing a `PwmDutycycleRegister` runs the validating
write path with payload `(0,)`: when `0 < MinDutyCycle` construction
itself raises `ValueError` and no register is produced; when it succeeds
it has already set the peripheral's `dutycyle` attribute to 0. -/
theorem C10_dutycycle_construction_side_effect (MinDutyCycle : Int)
    (pwm : HarpPwm) :
    (0 < MinDutyCycle →
      PwmDutycycleRegister.init MinDutyCycle pwm =
        .error .invalidValue) ∧
    (∀ (r : PwmDutycycleRegister) (tr : List Event),
      PwmDutycycleRegister.init MinDutyCycle pwm = .ok (r, tr) →
      r.harpPWM.dutycyle = 0) := by
  rw [pwmDutycycleInit_eval]
  constructor
  · intro h
    rw [if_pos h]
  · intro r tr h
    split at h
    · cases h
    · injection h with h1
      injection h1 with h2 h3
      subst h2
      rfl

/-- Witness for C10 at `MinDutyCycle = 5` (failure branch) and
`MinDutyCycle = 0` (success branch). -/
theorem C10_witness :
    PwmDutycycleRegister.init 5 ⟨100, 50, PyVal.bool false⟩ =
      .error .invalidValue ∧
    (⟨HarpTypes.U8, [0], ⟨100, 0, PyVal.bool false⟩⟩ :
      PwmDutycycleRegister).harpPWM.dutycyle = 0 :=
  ⟨(C10_dutycycle_construction_side_effect 5
      ⟨100, 50, PyVal.bool false⟩).1 (by decide),
   (C10_dutycycle_construction_side_effect 0
      ⟨100, 50, PyVal.bool false⟩).2
     ⟨HarpTypes.U8, [0], ⟨100, 0, PyVal.bool false⟩⟩
     [Event.store [0], Event.setDutycyle 0] (by rfl)⟩

/-- Claim C5: the PWM start register's two branches are extensionally
equal to the single unconditional store-then-start `writeSpec` taken from
the spec's words, for every enabled state of the peripheral; and every
successful write's trace invokes `start()` exactly once. -/
theorem C5_pwm_start_unconditional :
    (∀ (r : PwmStartRegister) (typ : HarpTypes) (value : List Int),
      PwmStartRegister.write r typ value =
        PwmStartRegister.writeSpec r typ value) ∧
    (∀ (r : PwmStartRegister) (typ : HarpTypes) (value : List Int)
        (r' : PwmStartRegister) (tr : List Event),
      PwmStartRegister.write r typ value = .ok (r', tr) →
      tr.count Event.pwmStart = 1) := by
  have hsame : ∀ (r : PwmStartRegister) (typ : HarpTypes)
      (value : List Int),
      PwmStartRegister.write r typ value =
        PwmStartRegister.writeSpec r typ value := by
    intro r typ value
    unfold PwmStartRegister.write PwmStartRegister.writeSpec
    split <;> rfl
  refine ⟨hsame, ?_⟩
  intro r typ value r' tr h
  rw [hsame] at h
  unfold PwmStartRegister.writeSpec at h
  split at h
  · cases h
  · injection h with h1
    injection h1 with h2 h3
    subst h3
    simp [List.count_cons]

/-- Witness for C5: a successful concrete start write invokes `start()`
exactly once. -/
theorem C5_witness :
    ([Event.store [1], Event.pwmStart]).count Event.pwmStart = 1 :=
  C5_pwm_start_unconditional.2
    ⟨HarpTypes.U8, [0], ⟨100, 50, PyVal.bool false⟩⟩ HarpTypes.U8 [1]
    ⟨HarpTypes.U8, [1], ⟨100, 50, PyVal.bool true⟩⟩
    [Event.store [1], Event.pwmStart] (by rfl)

/-- Claim C6: a PWM stop write while the peripheral's `enabled` is the
boolean `False` stores the payload but invokes no peripheral action
(trace is just the store, `harpPWM` unchanged); while `enabled` is the
boolean `True` it stores the payload and invokes `stop()` exactly once
(trace is the store followed by the single stop). -/
theorem C6_pwm_stop_conditional (r : PwmStopRegister) (v : Int) :
    (r.harpPWM.enabled = PyVal.bool false →
      PwmStopRegister.write r r.typ [v] =
        .ok ({ r with value := [v] }, [Event.store [v]])) ∧
    (r.harpPWM.enabled = PyVal.bool true →
      PwmStopRegister.write r r.typ [v] =
        .ok ({ r with value := [v], harpPWM := r.harpPWM.stop },
             [Event.store [v], Event.pwmStop])) := by
  constructor
  · intro h
    simp [PwmStopRegister.write, h, PyVal.pyIsTrue,
      baseWrite_self_singleton]
  · intro h
    simp [PwmStopRegister.write, h, PyVal.pyIsTrue,
      baseWrite_self_singleton]

/-- Witness for C6 in both enabled states, at payload `[7]`. -/
theorem C6_witness :
    PwmStopRegister.write
      ⟨HarpTypes.U8, [0], ⟨100, 50, PyVal.bool false⟩⟩ HarpTypes.U8 [7] =
      .ok (⟨HarpTypes.U8, [7], ⟨100, 50, PyVal.bool false⟩⟩,
           [Event.store [7]]) ∧
    PwmStopRegister.write
      ⟨HarpTypes.U8, [0], ⟨100, 50, PyVal.bool true⟩⟩ HarpTypes.U8 [7] =
      .ok (⟨HarpTypes.U8, [7], ⟨100, 50, PyVal.bool false⟩⟩,
           [Event.store [7], Event.pwmStop]) :=
  ⟨(C6_pwm_stop_conditional
      ⟨HarpTypes.U8, [0], ⟨100, 50, PyVal.bool false⟩⟩ 7).1 (by rfl),
   (C6_pwm_stop_conditional
      ⟨HarpTypes.U8, [0], ⟨100, 50, PyVal.bool true⟩⟩ 7).2 (by rfl)⟩

/-- Claim C7: a successful analog-stream-state write with payload `[v]`
enables the adc event when `v > 0` and disables it otherwise — a
threshold test, not boolean equality, so `[1]` and `[200]` both enable
while `[0]` disables (witness). -/
theorem C7_stream_threshold (r : AnalogStreamStateRegister) (v : Int) :
    (0 < v →
      AnalogStreamStateRegister.write r r.typ [v] =
        .ok ({ r with
               value := [v]
               picoObject :=
                 { adc_event := r.picoObject.adc_event.enable } },
             [Event.store [v], Event.adcEventEnable])) ∧
    (v ≤ 0 →
      AnalogStreamStateRegister.write r r.typ [v] =
        .ok ({ r with
               value := [v]
               picoObject :=
                 { adc_event := r.picoObject.adc_event.disable } },
             [Event.store [v], Event.adcEventDisable])) := by
  constructor
  · intro h
    simp [AnalogStreamStateRegister.write, baseWrite_self_singleton, h]
  · intro h
    have h' : ¬ 0 < v := not_lt.mpr h
    simp [AnalogStreamStateRegister.write, baseWrite_self_singleton, h']

/-- Witness for C7 at payloads `[0]` (disable), `[1]` and `[200]`
(enable). -/
theorem C7_witness :
    AnalogStreamStateRegister.write ⟨HarpTypes.U8, [0], ⟨⟨false⟩⟩⟩
      HarpTypes.U8 [0] =
      .ok (⟨HarpTypes.U8, [0], ⟨⟨false⟩⟩⟩,
           [Event.store [0], Event.adcEventDisable]) ∧
    AnalogStreamStateRegister.write ⟨HarpTypes.U8, [0], ⟨⟨false⟩⟩⟩
      HarpTypes.U8 [1] =
      .ok (⟨HarpTypes.U8, [1], ⟨⟨true⟩⟩⟩,
           [Event.store [1], Event.adcEventEnable]) ∧
    AnalogStreamStateRegister.write ⟨HarpTypes.U8, [0], ⟨⟨false⟩⟩⟩
      HarpTypes.U8 [200] =
      .ok (⟨HarpTypes.U8, [200], ⟨⟨true⟩⟩⟩,
           [Event.store [200], Event.adcEventEnable]) :=
  ⟨(C7_stream_threshold ⟨HarpTypes.U8, [0], ⟨⟨false⟩⟩⟩ 0).2 (by decide),
   (C7_stream_threshold ⟨HarpTypes.U8, [0], ⟨⟨false⟩⟩⟩ 1).1 (by decide),
   (C7_stream_threshold ⟨HarpTypes.U8, [0], ⟨⟨false⟩⟩⟩ 200).1 (by decide)⟩

/-- Claim C9: the PWM stop register tests `enabled is True`, an identity
check with the boolean singleton, not truthiness: with the truthy
non-boolean `enabled = 1` (a Python int) the write takes the store-only
branch — the payload is stored but `stop()` is not invoked and the
peripheral is unchanged. -/
theorem C9_pwm_stop_identity_check (r : PwmStopRegister) (v : Int)
    (h : r.harpPWM.enabled = PyVal.int 1) :
    PwmStopRegister.write r r.typ [v] =
      .ok ({ r with value := [v] }, [Event.store [v]]) := by
  simp [PwmStopRegister.write, h, PyVal.pyIsTrue, baseWrite_self_singleton]

/-- Witness for C9 at `enabled = 1`, payload `[7]`. -/
theorem C9_witness :
    PwmStopRegister.write
      ⟨HarpTypes.U8, [0], ⟨100, 50, PyVal.int 1⟩⟩ HarpTypes.U8 [7] =
      .ok (⟨HarpTypes.U8, [7], ⟨100, 50, PyVal.int 1⟩⟩,
           [Event.store [7]]) :=
  C9_pwm_stop_identity_check
    ⟨HarpTypes.U8, [0], ⟨100, 50, PyVal.int 1⟩⟩ 7 (by rfl)

/-- Counterexample to claim C8: a digital-input register whose cached
value is `[0]` while the live pin state is 7.  `read` returns the live
sample `[7]` but the register it leaves behind still caches `[0]`: the
cached value is not refreshed from the live sample, because the source
`read` bodies contain no assignment to `self.value`. -/
theorem C8_counterexample :
    HarpDigitalInputArrayRegister.read
      (HarpDigitalInputArrayRegister.init ⟨7⟩) HarpTypes.U8 =
      .ok ([7], HarpDigitalInputArrayRegister.init ⟨7⟩) ∧
    (HarpDigitalInputArrayRegister.init ⟨7⟩).value ≠ [7] :=
  ⟨rfl, by decide⟩

/-- Claim C8 as amended: for the live-sampling variants (digital input
array and ADC), every successful read returns the live peripheral sample
directly, bypassing the cache, and leaves the whole register — cached
value included — unchanged. -/
theorem C8_live_read_bypasses_cache :
    (∀ (r : HarpDigitalInputArrayRegister) (typ : HarpTypes)
        (out : List Int) (r' : HarpDigitalInputArrayRegister),
      HarpDigitalInputArrayRegister.read r typ = .ok (out, r') →
      r' = r ∧ out = [r.harp_digital_input_array.state]) ∧
    (∀ (r : AdcRegister) (typ : HarpTypes) (out : List Int)
        (r' : AdcRegister),
      AdcRegister.read r typ = .ok (out, r') →
      r' = r ∧ out = [r.adc.read_u16]) := by
  constructor
  · intro r typ out r' h
    unfold HarpDigitalInputArrayRegister.read at h
    split at h
    · cases h
    · injection h with h1
      injection h1 with h2 h3
      exact ⟨h3.symm, h2.symm⟩
  · intro r typ out r' h
    unfold AdcRegister.read at h
    split at h
    · cases h
    · injection h with h1
      injection h1 with h2 h3
      exact ⟨h3.symm, h2.symm⟩

/-- Witness for the amended C8 at a digital-input register with live pin
state 7. -/
theorem C8_witness :
    HarpDigitalInputArrayRegister.init ⟨7⟩ =
      HarpDigitalInputArrayRegister.init ⟨7⟩ ∧
    ([7] : List Int) =
      [(HarpDigitalInputArrayRegister.init
          ⟨7⟩).harp_digital_input_array.state] :=
  C8_live_read_bypasses_cache.1
    (HarpDigitalInputArrayRegister.init ⟨7⟩) HarpTypes.U8 [7]
    (HarpDigitalInputArrayRegister.init ⟨7⟩) (by rfl)

/-- Inversion for the frequency validator: when it succeeds it returns
its argument unchanged. -/
theorem PwmFreqRegister.freqValidate_ok {MinFrequency : Int}
    {value validated : List Int}
    (h : PwmFreqRegister.validate MinFrequency value = .ok validated) :
    validated = value := by
  unfold PwmFreqRegister.validate at h
  split at h
  · cases h
  · split at h
    · cases h
    · injection h with h1
      exact h1.symm

/-- Inversion for the duty-cycle validator: when it succeeds it returns
its argument unchanged. -/
theorem PwmDutycycleRegister.dutyValidate_ok {MinDutyCycle : Int}
    {value validated : List Int}
    (h : PwmDutycycleRegister.validate MinDutyCycle value =
      .ok validated) :
    validated = value := by
  unfold PwmDutycycleRegister.validate at h
  split at h
  · cases h
  · split at h
    · cases h
    · injection h with h1
      exact h1.symm

/-- Claim C1: for every concrete register variant that overrides `write`,
every successful write first stores the payload into the cached value —
which the successor register then holds, so an immediately following read
observes it — and only afterwards performs peripheral actions: the event
trace is the store of the payload followed by store-free peripheral
events. -/
theorem C1_store_before_peripheral_action :
    (∀ (r : HarpDigitalOutputArrayRegister) (typ : HarpTypes)
        (payload : List Int) (r' : HarpDigitalOutputArrayRegister)
        (tr : List Event),
      Set_HarpDigitalOutputArrayRegister.write r typ payload =
        .ok (r', tr) →
      r'.value = payload ∧ storeFirst tr payload) ∧
    (∀ (r : HarpDigitalOutputArrayRegister) (typ : HarpTypes)
        (payload : List Int) (r' : HarpDigitalOutputArrayRegister)
        (tr : List Event),
      Clear_HarpDigitalOutputArrayRegister.write r typ payload =
        .ok (r', tr) →
      r'.value = payload ∧ storeFirst tr payload) ∧
    (∀ (r : HarpDigitalOutputArrayRegister) (typ : HarpTypes)
        (payload : List Int) (r' : HarpDigitalOutputArrayRegister)
        (tr : List Event),
      Toggle_HarpDigitalOutputArrayRegister.write r typ payload =
        .ok (r', tr) →
      r'.value = payload ∧ storeFirst tr payload) ∧
    (∀ (r : AnalogStreamStateRegister) (typ : HarpTypes)
        (payload : List Int) (r' : AnalogStreamStateRegister)
        (tr : List Event),
      AnalogStreamStateRegister.write r typ payload = .ok (r', tr) →
      r'.value = payload ∧ storeFirst tr payload) ∧
    (∀ (MinFrequency : Int) (r : PwmFreqRegister) (typ : HarpTypes)
        (payload : List Int) (r' : PwmFreqRegister) (tr : List Event),
      PwmFreqRegister.write MinFrequency r typ payload = .ok (r', tr) →
      r'.value = payload ∧ storeFirst tr payload) ∧
    (∀ (MinDutyCycle : Int) (r : PwmDutycycleRegister) (typ : HarpTypes)
        (payload : List Int) (r' : PwmDutycycleRegister)
        (tr : List Event),
      PwmDutycycleRegister.write MinDutyCycle r typ payload =
        .ok (r', tr) →
      r'.value = payload ∧ storeFirst tr payload) ∧
    (∀ (r : PwmStartRegister) (typ : HarpTypes) (payload : List Int)
        (r' : PwmStartRegister) (tr : List Event),
      PwmStartRegister.write r typ payload = .ok (r', tr) →
      r'.value = payload ∧ storeFirst tr payload) ∧
    (∀ (r : PwmStopRegister) (typ : HarpTypes) (payload : List Int)
        (r' : PwmStopRegister) (tr : List Event),
      PwmStopRegister.write r typ payload = .ok (r', tr) →
      r'.value = payload ∧ storeFirst tr payload) := by
  refine ⟨?_, ?_, ?_, ?_, ?_, ?_, ?_, ?_⟩
  · intro r typ payload r' tr h
    unfold Set_HarpDigitalOutputArrayRegister.write at h
    split at h
    · cases h
    · rename_i stored hb
      rw [baseWrite_ok_iff] at hb
      obtain ⟨htyp, hlen, hst⟩ := hb
      rw [hst] at h
      cases payload with
      | nil => cases h
      | cons m rest =>
        injection h with h1
        injection h1 with h2 h3
        subst h2; subst h3
        refine ⟨rfl, [Event.setState m], rfl, ?_⟩
        intro e he
        simp at he
        subst he
        rfl
  · intro r typ payload r' tr h
    unfold Clear_HarpDigitalOutputArrayRegister.write at h
    split at h
    · cases h
    · rename_i stored hb
      rw [baseWrite_ok_iff] at hb
      obtain ⟨htyp, hlen, hst⟩ := hb
      rw [hst] at h
      cases payload with
      | nil => cases h
      | cons m rest =>
        injection h with h1
        injection h1 with h2 h3
        subst h2; subst h3
        refine ⟨rfl, [Event.clearState m], rfl, ?_⟩
        intro e he
        simp at he
        subst he
        rfl
  · intro r typ payload r' tr h
    unfold Toggle_HarpDigitalOutputArrayRegister.write at h
    split at h
    · cases h
    · rename_i stored hb
      rw [baseWrite_ok_iff] at hb
      obtain ⟨htyp, hlen, hst⟩ := hb
      rw [hst] at h
      cases payload with
      | nil => cases h
      | cons m rest =>
        injection h with h1
        injection h1 with h2 h3
        subst h2; subst h3
        refine ⟨rfl, [Event.toggleState m], rfl, ?_⟩
        intro e he
        simp at he
        subst he
        rfl
  · intro r typ payload r' tr h
    unfold AnalogStreamStateRegister.write at h
    split at h
    · cases h
    · rename_i stored hb
      rw [baseWrite_ok_iff] at hb
      obtain ⟨htyp, hlen, hst⟩ := hb
      rw [hst] at h
      split at h
      · cases h
      · rename_i mask v tail
        split at h
        · injection h with h1
          injection h1 with h2 h3
          subst h2; subst h3
          refine ⟨rfl, [Event.adcEventEnable], rfl, ?_⟩
          intro e he
          simp at he
          subst he
          rfl
        · injection h with h1
          injection h1 with h2 h3
          subst h2; subst h3
          refine ⟨rfl, [Event.adcEventDisable], rfl, ?_⟩
          intro e he
          simp at he
          subst he
          rfl
  · intro MinFrequency r typ payload r' tr h
    unfold PwmFreqRegister.write at h
    split at h
    · cases h
    · rename_i validated hval
      have hv := PwmFreqRegister.freqValidate_ok hval
      subst hv
      split at h
      · cases h
      · rename_i stored hb
        rw [baseWrite_ok_iff] at hb
        obtain ⟨htyp, hlen, hst⟩ := hb
        rw [hst] at h
        split at h
        · cases h
        · rename_i mask v tail
          injection h with h1
          injection h1 with h2 h3
          subst h2; subst h3
          refine ⟨rfl, [Event.setFrequency v], rfl, ?_⟩
          intro e he
          simp at he
          subst he
          rfl
  · intro MinDutyCycle r typ payload r' tr h
    unfold PwmDutycycleRegister.write at h
    split at h
    · cases h
    · rename_i validated hval
      have hv := PwmDutycycleRegister.dutyValidate_ok hval
      subst hv
      split at h
      · cases h
      · rename_i stored hb
        rw [baseWrite_ok_iff] at hb
        obtain ⟨htyp, hlen, hst⟩ := hb
        rw [hst] at h
        split at h
        · cases h
        · rename_i mask v tail
          injection h with h1
          injection h1 with h2 h3
          subst h2; subst h3
          refine ⟨rfl, [Event.setDutycyle v], rfl, ?_⟩
          intro e he
          simp at he
          subst he
          rfl
  · intro r typ payload r' tr h
    unfold PwmStartRegister.write at h
    split at h <;>
    · split at h
      · cases h
      · rename_i stored hb
        rw [baseWrite_ok_iff] at hb
        obtain ⟨htyp, hlen, hst⟩ := hb
        rw [hst] at h
        injection h with h1
        injection h1 with h2 h3
        subst h2; subst h3
        refine ⟨rfl, [Event.pwmStart], rfl, ?_⟩
        intro e he
        simp at he
        subst he
        rfl
  · intro r typ payload r' tr h
    unfold PwmStopRegister.write at h
    split at h
    · split at h
      · cases h
      · rename_i stored hb
        rw [baseWrite_ok_iff] at hb
        obtain ⟨htyp, hlen, hst⟩ := hb
        rw [hst] at h
        injection h with h1
        injection h1 with h2 h3
        subst h2; subst h3
        refine ⟨rfl, [Event.pwmStop], rfl, ?_⟩
        intro e he
        simp at he
        subst he
        rfl
    · split at h
      · cases h
      · rename_i stored hb
        rw [baseWrite_ok_iff] at hb
        obtain ⟨htyp, hlen, hst⟩ := hb
        rw [hst] at h
        injection h with h1
        injection h1 with h2 h3
        subst h2; subst h3
        refine ⟨rfl, [], rfl, ?_⟩
        intro e he
        simp at he

/-- Witness for C1: a concrete successful Set write stores first. -/
theorem C1_witness :
    (⟨HarpTypes.U8, [5], ⟨Int.lor 0 5⟩⟩ :
      HarpDigitalOutputArrayRegister).value = [5] ∧
    storeFirst [Event.store [5], Event.setState 5] [5] :=
  C1_store_before_peripheral_action.1
    ⟨HarpTypes.U8, [0], ⟨0⟩⟩ HarpTypes.U8 [5]
    ⟨HarpTypes.U8, [5], ⟨Int.lor 0 5⟩⟩
    [Event.store [5], Event.setState 5] (by rfl)
